import Mathlib

/-!
Verification of the NSAC heatwave subsystem: forecast discovery, ingest
pipeline and heat-risk classification, shallowly embedded from the Python
sources.  Machine floats are modelled as exact rationals; not-a-number
readings as `Option`; file-system and network effects as explicit state
passed through pure functions.
-/

namespace NSAC

/-- Rothfusz heat-index regression, from
`radio/data-processing/heatwave/heatwave_calculator.py` (`calculate_heat_index`);
`telco/data-processing/heatwave/meteorological_processor.py` defines the
numerically identical formula.  Coefficients are the exact rationals of the
source's decimal literals. -/
def calculate_heat_index (temp_c : ℚ) (humidity : ℚ) : ℚ :=
  let temp_f := temp_c * 9 / 5 + 32
  if temp_f < 80 then temp_c
  else
    let rh := humidity
    let c1 : ℚ := -42379 / 1000
    let c2 : ℚ := 204901523 / 100000000
    let c3 : ℚ := 1014333127 / 100000000
    let c4 : ℚ := -22475541 / 100000000
    let c5 : ℚ := -683783 / 100000000
    let c6 : ℚ := -5481717 / 100000000
    let c7 : ℚ := 122874 / 100000000
    let c8 : ℚ := 85282 / 100000000
    let c9 : ℚ := -199 / 100000000
    let hi_f := c1 + c2 * temp_f + c3 * rh + c4 * temp_f * rh +
      c5 * temp_f * temp_f + c6 * rh * rh +
      c7 * temp_f * temp_f * rh + c8 * temp_f * rh * rh +
      c9 * temp_f * temp_f * rh * rh
    (hi_f - 32) * 5 / 9

/-- Watch / warning / emergency cutoffs of `HeatwaveCalculator.regional_thresholds`. -/
structure RegionalThresholds where
  watch : ℚ
  warning : ℚ
  emergency : ℚ
  deriving DecidableEq, Repr

/-- `HeatwaveCalculator.get_regional_thresholds`: flat regional table keyed by
a coarse geographic split. -/
def get_regional_thresholds (latitude longitude : ℚ) : RegionalThresholds :=
  if latitude < 35 ∧ longitude < -100 then ⟨38, 43, 48⟩
  else if latitude < 35 ∧ -90 < longitude then ⟨32, 37, 42⟩
  else if 45 < latitude then ⟨28, 33, 38⟩
  else ⟨32, 38, 43⟩

/-- The three-step cutoff ladder of `analyze_location_heatwave` (lines 196-207):
emergency 3, warning 2, watch 1, else 0. -/
def alert_level_of (th : RegionalThresholds) (max_heat_index : ℚ) : ℕ :=
  if th.emergency ≤ max_heat_index then 3
  else if th.warning ≤ max_heat_index then 2
  else if th.watch ≤ max_heat_index then 1
  else 0

/-- Alert wording attached per ladder band in `analyze_location_heatwave`. -/
def alert_message_of (th : RegionalThresholds) (max_heat_index : ℚ) : String :=
  if th.emergency ≤ max_heat_index then
    "EMERGENCY: Extreme heat danger - seek immediate shelter"
  else if th.warning ≤ max_heat_index then
    "WARNING: Dangerous heat conditions - avoid outdoor activities"
  else if th.watch ≤ max_heat_index then
    "WATCH: Hot conditions - limit outdoor exposure"
  else "No heat risk"

/-- Base risk score before the duration / cooling / humidity adjustments
(`analyze_location_heatwave`, lines 196-207). -/
def base_risk_score (th : RegionalThresholds) (max_heat_index : ℚ) : ℚ :=
  if th.emergency ≤ max_heat_index then
    9 / 10 + min (1 / 10) ((max_heat_index - th.emergency) / 10)
  else if th.warning ≤ max_heat_index then
    6 / 10 + (max_heat_index - th.warning) / (th.emergency - th.warning) * (3 / 10)
  else if th.watch ≤ max_heat_index then
    3 / 10 + (max_heat_index - th.watch) / (th.warning - th.watch) * (3 / 10)
  else 0

/-- Fold mirroring Python `max` over a non-empty list, seeded with its head. -/
def listMax (x : ℚ) (xs : List ℚ) : ℚ := xs.foldl max x

/-- Fold mirroring Python `min` over a non-empty list, seeded with its head. -/
def listMin (x : ℚ) (xs : List ℚ) : ℚ := xs.foldl min x

/-- `sum(xs) / len(xs)` (callers only apply it to non-empty lists). -/
def listAvg (xs : List ℚ) : ℚ := xs.sum / xs.length

/-- Longest run of heat indices at or above the watch cutoff
(`analyze_location_heatwave`, lines 162-170): the fold state is
(best streak, current streak). -/
def longest_hot_streak (watch : ℚ) (heat_indices : List ℚ) : ℕ :=
  (heat_indices.foldl
    (fun (p : ℕ × ℕ) hi =>
      if watch ≤ hi then (max p.1 (p.2 + 1), p.2 + 1) else (p.1, 0))
    (0, 0)).1

/-- Nighttime-cooling computation of `analyze_location_heatwave`
(lines 172-184).  Note the slices are positional: `temperatures[6:18]`,
`temperatures[:6]`, `temperatures[18:]` on the list as given. -/
def nighttime_cooling_of (temperatures : List ℚ) (max_temp min_temp : ℚ) : ℚ :=
  if 12 ≤ temperatures.length then
    let day_temps :=
      if 18 ≤ temperatures.length then (temperatures.drop 6).take 12
      else temperatures.drop 6
    let night_temps :=
      if 18 ≤ temperatures.length then temperatures.take 6 ++ temperatures.drop 18
      else temperatures.take 6
    if day_temps ≠ [] ∧ night_temps ≠ [] then
      listAvg day_temps - listAvg night_temps
    else max_temp - min_temp
  else max_temp - min_temp

/-- One hourly meteorological record handed to the classifier (one row of the
`meteorological_data` query in `process_daily_heatwave_detection`);
`hour` is the hour of day of its `forecastHour` timestamp.  The classifier
itself only reads the list order, never `hour`. -/
structure MetRecord where
  latitude : ℚ
  longitude : ℚ
  hour : ℕ
  temperature : ℚ
  humidity : ℚ
  deriving DecidableEq, Repr

/-- Result record of `analyze_location_heatwave` (`HeatwaveAnalysis`). -/
structure HeatwaveAnalysis where
  latitude : ℚ
  longitude : ℚ
  max_temp : ℚ
  min_temp : ℚ
  avg_temp : ℚ
  max_heat_index : ℚ
  alert_level : ℕ
  alert_message : String
  risk_score : ℚ
  consecutive_hot_hours : ℕ
  nighttime_cooling : ℚ
  humidity_factor : ℚ
  deriving DecidableEq, Repr

/-- Body of `HeatwaveCalculator.analyze_location_heatwave` on a non-empty
record list (the < 6 sample gate is applied by the wrapper below). -/
def analyze_core (r : MetRecord) (rs : List MetRecord) : HeatwaveAnalysis :=
  let th := get_regional_thresholds r.latitude r.longitude
  let temperatures := (r :: rs).map (·.temperature)
  let humidities := (r :: rs).map (·.humidity)
  let max_temp := listMax r.temperature (rs.map (·.temperature))
  let min_temp := listMin r.temperature (rs.map (·.temperature))
  let heat_indices := (r :: rs).map (fun x => calculate_heat_index x.temperature x.humidity)
  let max_heat_index := listMax (calculate_heat_index r.temperature r.humidity)
    (rs.map (fun x => calculate_heat_index x.temperature x.humidity))
  let hot_hours := longest_hot_streak th.watch heat_indices
  let cooling := nighttime_cooling_of temperatures max_temp min_temp
  let avg_humidity := listAvg humidities
  let humidity_factor := min (avg_humidity / 100) 1
  let score0 := base_risk_score th max_heat_index
  let score1 := if 6 ≤ hot_hours then min 1 (score0 + 1 / 10) else score0
  let score2 := if cooling < 5 then min 1 (score1 + 1 / 10) else score1
  let score3 := if 7 / 10 < humidity_factor then min 1 (score2 + 1 / 10) else score2
  { latitude := r.latitude
    longitude := r.longitude
    max_temp := max_temp
    min_temp := min_temp
    avg_temp := listAvg temperatures
    max_heat_index := max_heat_index
    alert_level := alert_level_of th max_heat_index
    alert_message := alert_message_of th max_heat_index
    risk_score := score3
    consecutive_hot_hours := hot_hours
    nighttime_cooling := cooling
    humidity_factor := humidity_factor }

/-- `HeatwaveCalculator.analyze_location_heatwave`: `None` on fewer than six
samples, otherwise the analysis of the day's records. -/
def analyze_location_heatwave : List MetRecord → Option HeatwaveAnalysis
  | [] => none
  | r :: rs => if (r :: rs).length < 6 then none else some (analyze_core r rs)

/-- Persisted daily alert (`database.py`, `HeatwaveAlert`); dates and
timestamps are carried as integers (days / hours since an epoch). -/
structure HeatwaveAlert where
  latitude : ℚ
  longitude : ℚ
  alert_date : ℤ
  forecast_init_time : ℤ
  max_temperature : ℚ
  min_temperature : ℚ
  max_heat_index : ℚ
  alert_level : ℕ
  alert_message : String
  deriving DecidableEq, Repr

/-- Alert built from one analysis in `process_daily_heatwave_detection`. -/
def mk_alert (target_date forecast_init_time : ℤ) (a : HeatwaveAnalysis) : HeatwaveAlert :=
  { latitude := a.latitude
    longitude := a.longitude
    alert_date := target_date
    forecast_init_time := forecast_init_time
    max_temperature := a.max_temp
    min_temperature := a.min_temp
    max_heat_index := a.max_heat_index
    alert_level := a.alert_level
    alert_message := a.alert_message }

/-- Per-location loop of `HeatwaveCalculator.process_daily_heatwave_detection`
(lines 280-295): each location's records are analyzed and an alert is emitted
only when the analysis exists and its level is positive. -/
def process_daily_heatwave_detection (target_date forecast_init_time : ℤ)
    (location_groups : List (List MetRecord)) : List HeatwaveAlert :=
  location_groups.foldr
    (fun g acc =>
      match analyze_location_heatwave g with
      | some a => if 0 < a.alert_level then mk_alert target_date forecast_init_time a :: acc else acc
      | none => acc)
    []

/-!  Regional climate table of `telco/data-processing/heatwave/climate_data.py`. -/

/-- One region's threshold set (`CLIMATE_REGIONS` entry / `DEFAULT_THRESHOLDS`). -/
structure ClimateRegion where
  moderate_risk : ℚ
  high_risk : ℚ
  extreme_risk : ℚ
  heat_index_critical : Bool
  nighttime_cooling_threshold : ℚ
  deriving DecidableEq, Repr

/-- `NorthAmericanHeatwaveThresholds.get_climate_region`: first bounding box
that contains the point wins, in the dictionary's insertion order
(desert_southwest, great_plains, southeast_humid, northeast_temperate,
pacific_northwest), else the default thresholds. -/
def get_climate_region (latitude longitude : ℚ) : ClimateRegion :=
  if 32 ≤ latitude ∧ latitude ≤ 42 ∧ -125 ≤ longitude ∧ longitude ≤ -109 then
    ⟨40, 43, 46, false, 15⟩
  else if 30 ≤ latitude ∧ latitude ≤ 49 ∧ -104 ≤ longitude ∧ longitude ≤ -90 then
    ⟨35, 38, 41, true, 12⟩
  else if 25 ≤ latitude ∧ latitude ≤ 37 ∧ -95 ≤ longitude ∧ longitude ≤ -75 then
    ⟨32, 35, 38, true, 8⟩
  else if 37 ≤ latitude ∧ latitude ≤ 47 ∧ -80 ≤ longitude ∧ longitude ≤ -65 then
    ⟨30, 33, 36, true, 10⟩
  else if 42 ≤ latitude ∧ latitude ≤ 50 ∧ -125 ≤ longitude ∧ longitude ≤ -110 then
    ⟨28, 32, 35, false, 12⟩
  else ⟨32, 35, 38, true, 10⟩

/-- Ladder of `assess_heatwave_risk` (lines 161-172): extreme 4, high 3,
moderate 2, the moderate-minus-3 warning rung 1, else 0. -/
def base_risk_level (region : ClimateRegion) (assessment_temp : ℚ) : ℕ :=
  if region.extreme_risk ≤ assessment_temp then 4
  else if region.high_risk ≤ assessment_temp then 3
  else if region.moderate_risk ≤ assessment_temp then 2
  else if region.moderate_risk - 3 ≤ assessment_temp then 1
  else 0

/-- Result of `NorthAmericanHeatwaveThresholds.assess_heatwave_risk`. -/
structure RiskAssessment where
  risk_level : ℕ
  poor_cooling : Bool
  probability : ℚ
  assessment_temp : ℚ
  nighttime_cooling : ℚ
  deriving DecidableEq, Repr

/-- `NorthAmericanHeatwaveThresholds.assess_heatwave_risk` (lines 134-203):
base ladder on heat index or raw temperature per the region's flag, then one
escalation step (capped at 4) when `max − min` cooling is below the region's
threshold, then the probability bonuses. -/
def assess_heatwave_risk (latitude longitude daily_max_temp daily_min_temp
    max_heat_index : ℚ) (consecutive_hot_hours : ℕ) : RiskAssessment :=
  let region := get_climate_region latitude longitude
  let assessment_temp := if region.heat_index_critical then max_heat_index else daily_max_temp
  let base := base_risk_level region assessment_temp
  let nighttime_cooling := daily_max_temp - daily_min_temp
  let risk_level :=
    if nighttime_cooling < region.nighttime_cooling_threshold then min (base + 1) 4 else base
  let probability :=
    if risk_level = 0 then 0
    else
      let base_prob := 1 / 5 + ((risk_level : ℚ) - 1) * (1 / 5)
      let p1 :=
        if nighttime_cooling < region.nighttime_cooling_threshold then min (base_prob + 1 / 10) 1
        else base_prob
      if 12 ≤ consecutive_hot_hours then min (p1 + 1 / 10) 1 else p1
  { risk_level := risk_level
    poor_cooling := decide (nighttime_cooling < region.nighttime_cooling_threshold)
    probability := probability
    assessment_temp := assessment_temp
    nighttime_cooling := nighttime_cooling }

/-!  Geographic filter and grid extraction. -/

/-- `TempoGeographicFilter.is_in_tempo_coverage`. -/
def is_in_tempo_coverage (latitude longitude : ℚ) : Bool :=
  decide (25 ≤ latitude ∧ latitude ≤ 50 ∧ -125 ≤ longitude ∧ longitude ≤ -65)

/-- One sampled grid cell handed to the extractor; `none` in a field models a
not-a-number reading.  `temp_k` is the 2-meter temperature in kelvin. -/
structure GridCell where
  latitude : ℚ
  longitude : ℚ
  temp_k : Option ℚ
  humidity : Option ℚ
  u2m : Option ℚ
  v2m : Option ℚ
  ps : Option ℚ
  deriving DecidableEq, Repr

/-- One extracted hourly observation (`HourlyMetData`).  The source stores the
wind speed as the square root of `wind_speed_sq`; no verified claim depends on
its magnitude, so the embedding carries the exact squared value. -/
structure HourlyMetData where
  latitude : ℚ
  longitude : ℚ
  temperature : ℚ
  humidity : ℚ
  wind_speed_sq : ℚ
  pressure : ℚ
  heat_index : ℚ
  deriving DecidableEq, Repr

/-- Per-cell loop of `MeteorologicalProcessor.process_hourly_file`
(lines 183-228): drop cells outside TEMPO coverage, drop cells with any
not-a-number field, convert kelvin to Celsius and attach the heat index. -/
def process_hourly_file (cells : List GridCell) : List HourlyMetData :=
  cells.filterMap fun c =>
    if is_in_tempo_coverage c.latitude c.longitude then
      match c.temp_k, c.humidity, c.u2m, c.v2m, c.ps with
      | some tk, some rh, some u, some v, some p =>
          let temperature := tk - 27315 / 100
          some { latitude := c.latitude
                 longitude := c.longitude
                 temperature := temperature
                 humidity := rh
                 wind_speed_sq := u * u + v * v
                 pressure := p
                 heat_index := calculate_heat_index temperature rh }
      | _, _, _, _, _ => none
    else none

/-!  Persistence acceptance (`data-processing/heatwave/database.py`).  Only the
row-acceptance logic is modelled; the store itself is an external collaborator. -/

/-- One row offered to `insert_meteorological_data`. -/
structure MeteorologicalData where
  latitude : ℚ
  longitude : ℚ
  forecast_hour : ℤ
  forecast_init_time : ℤ
  temperature : ℚ
  humidity : ℚ
  wind_speed : ℚ
  pressure : ℚ
  deriving DecidableEq, Repr

/-- Rows `insert_meteorological_data` (lines 94-112) passes to the store: the
TEMPO coverage filter applied before batching. -/
def insert_meteorological_data_accepted (rows : List MeteorologicalData) :
    List MeteorologicalData :=
  rows.filter fun d => is_in_tempo_coverage d.latitude d.longitude

/-- Rows `insert_heatwave_alerts` (lines 149-215) passes to the store: the
TEMPO coverage filter plus the level-positive filter. -/
def insert_heatwave_alerts_accepted (alerts : List HeatwaveAlert) : List HeatwaveAlert :=
  alerts.filter fun a => is_in_tempo_coverage a.latitude a.longitude && decide (0 < a.alert_level)

/-!  File fetcher (`data-processing/heatwave/smart_downloader.py`,
`download_single_file`).  The file at the target save path is modelled as
`Option (ℕ × Bool)` -- size in bytes and whether it passes the structural
NetCDF validation; each network attempt's outcome is an environment input. -/

/-- Outcome of one download attempt: a request/timeout error (possibly leaving
`leftover` partially written bytes on disk), or a fully streamed body of the
given size that does or does not validate. -/
inductive DownloadAttempt where
  | requestError (leftover : Option ℕ)
  | fetched (size : ℕ) (valid : Bool)
  deriving DecidableEq, Repr

/-- The 1 MiB minimum-plausible-size floor (`1024 * 1024`). -/
def min_plausible_size : ℕ := 1024 * 1024

/-- The per-attempt cleanup in the source's `finally` block (lines 219-222):
a file smaller than the floor (including an empty one) is deleted. -/
def cleanup_small : Option (ℕ × Bool) → Option (ℕ × Bool)
  | some f => if f.1 < min_plausible_size then none else some f
  | none => none

/-- Retry loop of `download_single_file` (lines 162-222) over the listed
attempt outcomes, threading the on-disk file state.  A validated fetch returns
success (the `finally` cleanup still runs before control leaves the function);
a corrupted fetch is deleted and the loop retries; a request error leaves any
partial bytes for the cleanup.  An exhausted list is the exhausted retry
budget: failure. -/
def download_attempt_loop : Option (ℕ × Bool) → List DownloadAttempt → Bool × Option (ℕ × Bool)
  | st, [] => (false, st)
  | st, .requestError leftover :: rest =>
      let after := match leftover with | none => st | some n => some (n, false)
      download_attempt_loop (cleanup_small after) rest
  | _, .fetched size valid :: rest =>
      if valid then (true, cleanup_small (some (size, valid)))
      else download_attempt_loop (cleanup_small none) rest

/-- `MeteorologicalDataDownloader.download_single_file` with `max_retries = 3`:
a pre-existing file strictly larger than the floor that validates is accepted
without re-downloading; otherwise it is deleted and at most three attempts run.
Returns (reported success, file remaining at the save path). -/
def download_single_file (pre : Option (ℕ × Bool)) (attempts : List DownloadAttempt) :
    Bool × Option (ℕ × Bool) :=
  match pre with
  | some f =>
      if min_plausible_size < f.1 then
        if f.2 then (true, some f)
        else download_attempt_loop none (attempts.take 3)
      else download_attempt_loop none (attempts.take 3)
  | none => download_attempt_loop none (attempts.take 3)

/-!  Orchestrator per-descriptor loop
(`telco/data-processing/heatwave/main.py`, `run_sequential_pipeline`,
lines 369-427). -/

/-- Environment of one descriptor in the sequential loop: the outcomes its
download attempts would produce, and how many data points extraction yields
from the downloaded file. -/
structure DescriptorRun where
  attempts : List DownloadAttempt
  extracted : ℕ
  deriving DecidableEq, Repr

/-- The sequential per-file loop, returning
(files_processed, files_failed): a failed download counts one failure and the
loop continues; a downloaded file with no extracted data also counts one
failure; otherwise the file is stored and counted processed. -/
def run_file_loop : List DescriptorRun → ℕ × ℕ
  | [] => (0, 0)
  | d :: rest =>
      let tail := run_file_loop rest
      if (download_single_file none d.attempts).1 then
        if 0 < d.extracted then (tail.1 + 1, tail.2) else (tail.1, tail.2 + 1)
      else (tail.1, tail.2 + 1)

/-!  Forecast locator.  Times are absolute hours since an epoch; a candidate
initialization is (days back, 12z?). -/

/-- Initialization time of a candidate (`get_forecast_init_time`): the current
day's midnight shifted back `days_back` days, at hour 12 or 0. -/
def forecast_init_hour_of (today_midnight : ℤ) (c : ℕ × Bool) : ℤ :=
  today_midnight - 24 * (c.1 : ℤ) + (if c.2 then 12 else 0)

/-- `generate_hourly_file_urls` reduced to its hour-offset skeleton: the 24
target hours of the requested date, with any offset outside [0, 120] dropped. -/
def generate_hourly_offsets (forecast_init_hour target_midnight : ℤ) : List ℤ :=
  (List.range 24).filterMap fun h =>
    let off := target_midnight - forecast_init_hour + (h : ℤ)
    if 0 ≤ off ∧ off ≤ 120 then some off else none

/-- Candidate order of `download_24h_batch` (lines 314-335) and of the
explicit-target search in `run_sequential_pipeline` (lines 333-341):
`days_back` ascending, and for each day 12z before 00z. -/
def batch_init_candidates (max_days_back : ℕ) : List (ℕ × Bool) :=
  (List.range (max_days_back + 1)).flatMap fun d => [(d, true), (d, false)]

/-- Candidate order of the inner initialization search of
`find_latest_available_forecast` (lines 259-283): for `use_12z` in
[True, False], `init_days_back` in 0..4 -- all 12z candidates precede every
00z candidate. -/
def auto_init_candidates : List (ℕ × Bool) :=
  [true, false].flatMap fun z => (List.range 5).map fun d => (d, z)

/-- The existence probe of one candidate: build the hourly descriptors and
HEAD-check only the first one (`test_urls[0]`); a candidate with no
descriptors is skipped, i.e. treated as failing. -/
def first_hour_probe (url_exists : ℤ × ℤ → Bool) (today_midnight target_midnight : ℤ)
    (c : ℕ × Bool) : Bool :=
  match (generate_hourly_offsets (forecast_init_hour_of today_midnight c) target_midnight).head? with
  | some off => url_exists (forecast_init_hour_of today_midnight c, off)
  | none => false

/-- Explicit-target discovery: first candidate in batch order whose
first-hour probe succeeds. -/
def find_forecast_batch (url_exists : ℤ × ℤ → Bool) (today_midnight target_midnight : ℤ)
    (max_days_back : ℕ) : Option (ℕ × Bool) :=
  (batch_init_candidates max_days_back).find?
    (first_hour_probe url_exists today_midnight target_midnight)

/-- Auto-detect discovery for one search date: first candidate in the
12z-block-then-00z-block order whose first-hour probe succeeds. -/
def find_forecast_auto (url_exists : ℤ × ℤ → Bool) (today_midnight target_midnight : ℤ) :
    Option (ℕ × Bool) :=
  auto_init_candidates.find? (first_hour_probe url_exists today_midnight target_midnight)

/-- Maximum temperature of a record list, 0 for the empty list (only used on
non-empty lists). -/
def max_temp_of : List MetRecord → ℚ
  | [] => 0
  | r :: rs => listMax r.temperature (rs.map (·.temperature))

/-- Minimum temperature of a record list, 0 for the empty list. -/
def min_temp_of : List MetRecord → ℚ
  | [] => 0
  | r :: rs => listMin r.temperature (rs.map (·.temperature))

/-- The spec's wording of the nighttime-cooling rule, for comparison with the
source's `nighttime_cooling_of`: with at least 12 samples, average of the
samples whose hour of day lies within 6-18 minus the average of the samples
outside those hours; otherwise max minus min. -/
def spec_nighttime_cooling (records : List MetRecord) : ℚ :=
  if 12 ≤ records.length then
    let day := records.filter fun r => decide (6 ≤ r.hour ∧ r.hour < 18)
    let night := records.filter fun r => ! decide (6 ≤ r.hour ∧ r.hour < 18)
    listAvg (day.map (·.temperature)) - listAvg (night.map (·.temperature))
  else max_temp_of records - min_temp_of records

/-!  Claims. -/

/-- Six hourly samples at (30, -85) -- the flat table's southeast region, the
climate table's southeast_humid region -- all at 33 degC and 50 percent
humidity, so the day has zero nighttime cooling. -/
def c1_records : List MetRecord :=
  [⟨30, -85, 0, 33, 50⟩, ⟨30, -85, 1, 33, 50⟩, ⟨30, -85, 2, 33, 50⟩,
   ⟨30, -85, 3, 33, 50⟩, ⟨30, -85, 4, 33, 50⟩, ⟨30, -85, 5, 33, 50⟩]

/-- Claim C1 is false as stated: on a location-day whose nighttime cooling (0)
is below the climate region's minimum cooling threshold (8 for
southeast_humid), the persisted alert level equals the base ladder level (1),
not the base level escalated by one step (2): `analyze_location_heatwave`
only adds 0.1 to the continuous risk score on poor cooling and never touches
the level. -/
theorem c1_counterexample :
    (analyze_location_heatwave c1_records).map
        (fun a => (a.alert_level,
          alert_level_of (get_regional_thresholds a.latitude a.longitude) a.max_heat_index,
          decide (a.nighttime_cooling <
            (get_climate_region a.latitude a.longitude).nighttime_cooling_threshold)))
      = some (1, 1, true) ∧ (1 : ℕ) ≠ min (1 + 1) 3 := by
  constructor
  · norm_num [analyze_location_heatwave, c1_records, analyze_core,
      get_regional_thresholds, alert_level_of, get_climate_region, calculate_heat_index,
      listMax, listMin, listAvg, nighttime_cooling_of, longest_hot_streak]
  · decide

/-- Claim C1, amended: the persisted risk level always equals the base level
from the region's 3-step cutoff ladder applied to the day's max heat index,
whether or not nighttime cooling meets the region's minimum; insufficient
cooling only raises the continuous risk score. -/
theorem c1_amended_level_is_base_ladder (records : List MetRecord) :
    (analyze_location_heatwave records).all
      (fun a => a.alert_level ==
        alert_level_of (get_regional_thresholds a.latitude a.longitude) a.max_heat_index)
      = true := by
  cases records with
  | nil => rfl
  | cons r rs =>
    show Option.all _
      (if (r :: rs).length < 6 then none else some (analyze_core r rs)) = true
    split
    · rfl
    · simp [analyze_core]

/-- Claim C2 is false as stated: the deadband cutoff is 80 degF exactly, i.e.
26 and 2/3 degC, strictly below 26.7 degC.  At 26.68 degC (which is below
26.7) and 50 percent humidity the converted temperature is 80.024 degF, the
regression branch runs, and the heat index differs from the input
temperature. -/
theorem c2_counterexample :
    (2668 / 100 : ℚ) < 267 / 10 ∧ calculate_heat_index (2668 / 100) 50 ≠ 2668 / 100 := by
  constructor
  · norm_num
  · norm_num [calculate_heat_index]

/-- Claim C2, amended: for every temperature whose Fahrenheit conversion is
strictly below 80 degF (equivalently, strictly below 80/3 = 26.666... degC)
and every humidity, the heat index equals the input temperature. -/
theorem c2_amended_deadband (t h : ℚ) (ht : t * 9 / 5 + 32 < 80) :
    calculate_heat_index t h = t := by
  unfold calculate_heat_index
  simp only []
  rw [if_pos ht]

/-- Witness for `c2_amended_deadband` at 20 degC, 90 percent humidity. -/
theorem c2_amended_deadband_witness : calculate_heat_index 20 90 = 20 :=
  c2_amended_deadband 20 90 (by norm_num)

/-- Claim C3 is false as stated: at a desert_southwest location (33, -112)
with daily max temperature 45 degC at 20 percent humidity and no cooling
escalation (cooling 16 at or above the region's 15), `assess_heatwave_risk`
assigns base risk level 3 -- the band between the high (43) and extreme (46)
cutoffs of the code's 0-4 ladder -- not level 2. -/
theorem c3_counterexample :
    (assess_heatwave_risk 33 (-112) 45 29 (calculate_heat_index 45 20) 0).risk_level = 3 ∧
      (3 : ℕ) ≠ 2 := by
  constructor
  · norm_num [assess_heatwave_risk, get_climate_region, base_risk_level,
      calculate_heat_index]
  · decide

/-- Claim C3, amended: for a day whose maximum temperature lies at or above
the desert region's high cutoff (43 degC) and strictly below its extreme
cutoff (46 degC), at any location inside the desert_southwest bounding box
and with nighttime cooling meeting the region's 15-degree minimum, the
classifier assigns risk level 3 of its 0-4 ladder (the high-risk band),
regardless of heat index and hot-hour count. -/
theorem c3_amended_desert_high_band (lat lon maxT minT mhi : ℚ) (hot_hours : ℕ)
    (h1 : 32 ≤ lat) (h2 : lat ≤ 42) (h3 : -125 ≤ lon) (h4 : lon ≤ -109)
    (h5 : 43 ≤ maxT) (h6 : maxT < 46) (h7 : 15 ≤ maxT - minT) :
    (assess_heatwave_risk lat lon maxT minT mhi hot_hours).risk_level = 3 := by
  have hreg : get_climate_region lat lon = ⟨40, 43, 46, false, 15⟩ := by
    unfold get_climate_region
    rw [if_pos ⟨h1, h2, h3, h4⟩]
  unfold assess_heatwave_risk
  rw [hreg]
  simp only [base_risk_level]
  split_ifs <;> first | rfl | (exfalso; linarith) | (exfalso; simp_all)

/-- Witness for `c3_amended_desert_high_band` at (33, -112), max 45, min 29. -/
theorem c3_amended_desert_high_band_witness :
    (assess_heatwave_risk 33 (-112) 45 29 44 10).risk_level = 3 :=
  c3_amended_desert_high_band 33 (-112) 45 29 44 10 (by norm_num) (by norm_num)
    (by norm_num) (by norm_num) (by norm_num) (by norm_num) (by norm_num)

/-- Twelve hourly samples covering hours 12..23 of the day (a half-day of
coverage, as after a midday forecast start): 30 degC during hours 12-17,
20 degC during hours 18-23. -/
def c5_records : List MetRecord :=
  [⟨30, -85, 12, 30, 50⟩, ⟨30, -85, 13, 30, 50⟩, ⟨30, -85, 14, 30, 50⟩,
   ⟨30, -85, 15, 30, 50⟩, ⟨30, -85, 16, 30, 50⟩, ⟨30, -85, 17, 30, 50⟩,
   ⟨30, -85, 18, 20, 50⟩, ⟨30, -85, 19, 20, 50⟩, ⟨30, -85, 20, 20, 50⟩,
   ⟨30, -85, 21, 20, 50⟩, ⟨30, -85, 22, 20, 50⟩, ⟨30, -85, 23, 20, 50⟩]

/-- Claim C5 is false as stated: on 12 samples covering hours 12..23, the
code slices the ordered sample list by position (elements 6..11 as "day",
elements 0..5 as "night"), yielding cooling -10, while the hour-of-day rule
the claim states (samples within hours 6-18 minus samples outside) yields
+10. -/
theorem c5_counterexample :
    (analyze_location_heatwave c5_records).map (·.nighttime_cooling) = some (-10) ∧
      spec_nighttime_cooling c5_records = 10 ∧ (-10 : ℚ) ≠ 10 := by
  refine ⟨?_, ?_, by norm_num⟩
  · norm_num [analyze_location_heatwave, c5_records, analyze_core,
      nighttime_cooling_of, listMax, listMin, listAvg]
    exact ⟨by simp, by simp⟩
  · norm_num [spec_nighttime_cooling, c5_records, listAvg]

/-- Claim C5, amended: with fewer than 12 samples (but at least the 6 the
coverage gate requires) nighttime cooling is max minus min temperature; with
at least 12 samples it is the average of the samples at positions 6-17 of the
ordered list (positions 6 to the end when there are fewer than 18) minus the
average of the samples at positions 0-5 plus 18 onward (positions 0-5 when
there are fewer than 18).  The slices are positional, not hour-of-day based;
they agree with the claim's hour rule only when sample k is the day's hour k
for every k. -/
theorem c5_amended_positional_cooling :
    (∀ g : List MetRecord, 6 ≤ g.length → g.length < 12 →
        (analyze_location_heatwave g).map (·.nighttime_cooling)
          = some (max_temp_of g - min_temp_of g)) ∧
    (∀ g : List MetRecord, 12 ≤ g.length →
        (analyze_location_heatwave g).map (·.nighttime_cooling)
          = some
            (listAvg (if 18 ≤ g.length then ((g.map (·.temperature)).drop 6).take 12
                      else (g.map (·.temperature)).drop 6) -
             listAvg (if 18 ≤ g.length then
                        (g.map (·.temperature)).take 6 ++ (g.map (·.temperature)).drop 18
                      else (g.map (·.temperature)).take 6))) := by
  constructor
  · intro g h6 h12
    cases g with
    | nil => simp at h6
    | cons r rs =>
      have hnot : ¬((r :: rs).length < 6) := by omega
      show ((if (r :: rs).length < 6 then none else some (analyze_core r rs)).map
        (·.nighttime_cooling)) = _
      rw [if_neg hnot]
      simp only [Option.map_some', Option.some.injEq]
      show nighttime_cooling_of ((r :: rs).map (·.temperature))
          (listMax r.temperature (rs.map (·.temperature)))
          (listMin r.temperature (rs.map (·.temperature)))
        = max_temp_of (r :: rs) - min_temp_of (r :: rs)
      unfold nighttime_cooling_of
      rw [if_neg (by simp only [List.length_map]; omega)]
      rfl
  · intro g h12
    cases g with
    | nil => simp at h12
    | cons r rs =>
      have hnot : ¬((r :: rs).length < 6) := by omega
      show ((if (r :: rs).length < 6 then none else some (analyze_core r rs)).map
        (·.nighttime_cooling)) = _
      rw [if_neg hnot]
      simp only [Option.map_some', Option.some.injEq]
      show nighttime_cooling_of ((r :: rs).map (·.temperature))
          (listMax r.temperature (rs.map (·.temperature)))
          (listMin r.temperature (rs.map (·.temperature)))
        = _
      unfold nighttime_cooling_of
      rw [if_pos (by simp only [List.length_map]; omega)]
      rw [if_pos ?_]
      · simp only [List.length_map]
      · constructor
        · split_ifs with h18 <;>
            · apply List.ne_nil_of_length_pos
              simp only [List.length_take, List.length_drop, List.length_map] at *
              omega
        · split_ifs with h18
          · apply List.ne_nil_of_length_pos
            simp only [List.length_append, List.length_take, List.length_drop,
              List.length_map] at *
            omega
          · apply List.ne_nil_of_length_pos
            simp only [List.length_take, List.length_map] at *
            omega

/-- Six samples with distinct temperatures, for the fallback branch. -/
def c5_short_records : List MetRecord :=
  [⟨30, -85, 0, 25, 50⟩, ⟨30, -85, 1, 24, 50⟩, ⟨30, -85, 2, 23, 50⟩,
   ⟨30, -85, 3, 28, 50⟩, ⟨30, -85, 4, 27, 50⟩, ⟨30, -85, 5, 26, 50⟩]

/-- Witness for `c5_amended_positional_cooling` on a six-sample day. -/
theorem c5_amended_positional_cooling_witness :
    (analyze_location_heatwave c5_short_records).map (·.nighttime_cooling)
      = some (max_temp_of c5_short_records - min_temp_of c5_short_records) :=
  c5_amended_positional_cooling.1 c5_short_records (by decide) (by decide)

/-- The first-match ladder of `base_risk_level` is monotone in the
assessment temperature, whatever the region's cutoffs. -/
theorem base_risk_level_mono (region : ClimateRegion) {t1 t2 : ℚ} (h : t1 ≤ t2) :
    base_risk_level region t1 ≤ base_risk_level region t2 := by
  unfold base_risk_level
  split_ifs <;> first | omega | (exfalso; linarith)

/-- Claim C6: for a fixed location (hence fixed climate region) and fixed
daily max/min temperatures whose cooling meets the region's minimum,
`assess_heatwave_risk` is monotonically non-decreasing in the day's max heat
index. -/
theorem c6_risk_monotone (lat lon maxT minT hi1 hi2 : ℚ) (hot_hours : ℕ)
    (hcool : (get_climate_region lat lon).nighttime_cooling_threshold ≤ maxT - minT)
    (hle : hi1 ≤ hi2) :
    (assess_heatwave_risk lat lon maxT minT hi1 hot_hours).risk_level ≤
      (assess_heatwave_risk lat lon maxT minT hi2 hot_hours).risk_level := by
  unfold assess_heatwave_risk
  simp only [base_risk_level]
  split_ifs <;> first | omega | (exfalso; linarith)

/-- Witness for `c6_risk_monotone` at (30, -85), cooling 10 against the
southeast_humid minimum 8, heat indices 30 and 36. -/
theorem c6_risk_monotone_witness :
    (assess_heatwave_risk 30 (-85) 40 30 30 0).risk_level ≤
      (assess_heatwave_risk 30 (-85) 40 30 36 0).risk_level :=
  c6_risk_monotone 30 (-85) 40 30 30 36 0 (by norm_num [get_climate_region]) (by norm_num)

/-- Claim C7: every observation emitted by grid extraction, and every row the
persistence layer accepts (observation or alert), has latitude in [25, 50]
and longitude in [-125, -65]. -/
theorem c7_bounding_box :
    (∀ (cells : List GridCell) (o : HourlyMetData), o ∈ process_hourly_file cells →
        25 ≤ o.latitude ∧ o.latitude ≤ 50 ∧ -125 ≤ o.longitude ∧ o.longitude ≤ -65) ∧
    (∀ (rows : List MeteorologicalData) (d : MeteorologicalData),
        d ∈ insert_meteorological_data_accepted rows →
        25 ≤ d.latitude ∧ d.latitude ≤ 50 ∧ -125 ≤ d.longitude ∧ d.longitude ≤ -65) ∧
    (∀ (alerts : List HeatwaveAlert) (a : HeatwaveAlert),
        a ∈ insert_heatwave_alerts_accepted alerts →
        25 ≤ a.latitude ∧ a.latitude ≤ 50 ∧ -125 ≤ a.longitude ∧ a.longitude ≤ -65) := by
  refine ⟨?_, ?_, ?_⟩
  · intro cells o ho
    simp only [process_hourly_file, List.mem_filterMap] at ho
    obtain ⟨c, -, hc⟩ := ho
    split_ifs at hc with hcov
    have hprop := of_decide_eq_true hcov
    rcases h1 : c.temp_k with - | tk <;> rw [h1] at hc <;>
      rcases h2 : c.humidity with - | rh <;> rw [h2] at hc <;>
      rcases h3 : c.u2m with - | u <;> rw [h3] at hc <;>
      rcases h4 : c.v2m with - | v <;> rw [h4] at hc <;>
      rcases h5 : c.ps with - | p <;> rw [h5] at hc <;>
      simp only [Option.some.injEq, reduceCtorEq] at hc
    rw [← hc]
    exact hprop
  · intro rows d hd
    simp only [insert_meteorological_data_accepted, List.mem_filter] at hd
    exact of_decide_eq_true hd.2
  · intro alerts a ha
    simp only [insert_heatwave_alerts_accepted, List.mem_filter, Bool.and_eq_true] at ha
    exact of_decide_eq_true ha.2.1

/-- Witness for `c7_bounding_box` on one in-coverage cell at (30, -90). -/
theorem c7_bounding_box_witness :
    (25 : ℚ) ≤ 30 ∧ (30 : ℚ) ≤ 50 ∧ (-125 : ℚ) ≤ -90 ∧ (-90 : ℚ) ≤ -65 :=
  c7_bounding_box.1
    [⟨30, -90, some (29315 / 100), some 50, some 1, some 2, some 101325⟩]
    ⟨30, -90, 20, 50, 5, 101325, 20⟩
    (by norm_num [process_hourly_file, is_in_tempo_coverage, calculate_heat_index])

/-- Claim C8: a location with exactly 5 hourly samples yields no assessment
(and no alert); with 6 samples it yields exactly one assessment, persisted
only when its level is positive. -/
theorem c8_coverage_gate :
    (∀ (g : List MetRecord) (d t : ℤ), g.length = 5 →
        analyze_location_heatwave g = none ∧
          process_daily_heatwave_detection d t [g] = []) ∧
    (∀ (g : List MetRecord) (d t : ℤ), g.length = 6 →
        ∃ a, analyze_location_heatwave g = some a ∧
          process_daily_heatwave_detection d t [g] =
            if 0 < a.alert_level then [mk_alert d t a] else []) := by
  constructor
  · intro g d t hlen
    cases g with
    | nil => simp at hlen
    | cons r rs =>
      have hnone : analyze_location_heatwave (r :: rs) = none := by
        show (if (r :: rs).length < 6 then none else some (analyze_core r rs)) = none
        rw [if_pos (by omega)]
      refine ⟨hnone, ?_⟩
      simp [process_daily_heatwave_detection, hnone]
  · intro g d t hlen
    cases g with
    | nil => simp at hlen
    | cons r rs =>
      have hsome : analyze_location_heatwave (r :: rs) = some (analyze_core r rs) := by
        show (if (r :: rs).length < 6 then none else some (analyze_core r rs)) = _
        rw [if_neg (by omega)]
      refine ⟨analyze_core r rs, hsome, ?_⟩
      simp only [process_daily_heatwave_detection, List.foldr, hsome]

/-- Witness for `c8_coverage_gate` on a five-sample day. -/
theorem c8_coverage_gate_witness :
    analyze_location_heatwave (c5_short_records.take 5) = none ∧
      process_daily_heatwave_detection 0 0 [c5_short_records.take 5] = [] :=
  c8_coverage_gate.1 (c5_short_records.take 5) 0 0 (by decide)

/-- Claim C9: when all three download attempts for a descriptor yield
structurally invalid files, the fetch reports failure by return value, the
orchestrator's failed-file counter for the whole run is exactly one more than
for the remaining descriptors, and those remaining descriptors are still
processed (their counts are unchanged). -/
theorem c9_three_failures_continue (s1 s2 s3 extracted : ℕ) (rest : List DescriptorRun) :
    (download_single_file none
        [.fetched s1 false, .fetched s2 false, .fetched s3 false]).1 = false ∧
      run_file_loop
          (⟨[.fetched s1 false, .fetched s2 false, .fetched s3 false], extracted⟩ :: rest)
        = ((run_file_loop rest).1, (run_file_loop rest).2 + 1) := by
  exact ⟨rfl, rfl⟩

/-- Files surviving the per-attempt cleanup are at least the floor. -/
theorem cleanup_small_floor (st : Option (ℕ × Bool)) (f : ℕ × Bool)
    (h : cleanup_small st = some f) : min_plausible_size ≤ f.1 := by
  cases st with
  | none => simp [cleanup_small] at h
  | some g =>
    have h' : (if g.1 < min_plausible_size then none else some g) = some f := h
    split_ifs at h' with hs
    have hgf : g = f := by simpa using h'
    cases hgf
    omega

/-- The retry loop preserves the no-small-file invariant of the save path. -/
theorem download_attempt_loop_floor (attempts : List DownloadAttempt) :
    ∀ st : Option (ℕ × Bool), (∀ f, st = some f → min_plausible_size ≤ f.1) →
      ∀ f, (download_attempt_loop st attempts).2 = some f → min_plausible_size ≤ f.1 := by
  induction attempts with
  | nil => exact fun st hst f hf => hst f hf
  | cons a rest ih =>
    intro st hst f hf
    cases a with
    | requestError leftover =>
      exact ih _ (fun g hg => cleanup_small_floor _ g hg) f hf
    | fetched size valid =>
      cases valid with
      | true =>
        have hf' : cleanup_small (some (size, true)) = some f := hf
        exact cleanup_small_floor _ f hf'
      | false =>
        have hf' : (download_attempt_loop (cleanup_small none) rest).2 = some f := hf
        exact ih _ (fun g hg => cleanup_small_floor _ g hg) f hf'

/-- Claim C10: whatever file was at the save path beforehand and however the
attempts go, when `download_single_file` returns, no file smaller than the
1 MiB floor remains at the save path; in particular a structurally valid
download below the floor is deleted by the per-attempt cleanup even though
the call returns success. -/
theorem c10_no_small_file_remains :
    (∀ (pre : Option (ℕ × Bool)) (attempts : List DownloadAttempt) (f : ℕ × Bool),
        (download_single_file pre attempts).2 = some f → min_plausible_size ≤ f.1) ∧
    (∀ size : ℕ, size < min_plausible_size →
        download_single_file none [.fetched size true] = (true, none)) := by
  constructor
  · intro pre attempts f hf
    have hloop := download_attempt_loop_floor (attempts.take 3) none (by simp) f
    cases pre with
    | none => exact hloop hf
    | some g =>
      have hf' : (if min_plausible_size < g.1 then
          if g.2 = true then ((true, some g) : Bool × Option (ℕ × Bool))
          else download_attempt_loop none (attempts.take 3)
          else download_attempt_loop none (attempts.take 3)).2 = some f := hf
      split_ifs at hf' with h1 h2
      · obtain rfl : g = f := by simpa using hf'
        omega
      · exact hloop hf'
      · exact hloop hf'
  · intro size hsize
    show (true, cleanup_small (some (size, true))) = (true, none)
    simp [cleanup_small, hsize]

/-- Witness for `c10_no_small_file_remains`: a pre-existing valid 2 MiB file
is kept, and it is at least the floor. -/
theorem c10_no_small_file_remains_witness : min_plausible_size ≤ 2097152 :=
  c10_no_small_file_remains.1 (some (2097152, true)) [] (2097152, true) rfl

/-- Every candidate the batch walk generates looks back at most
`max_days_back` days. -/
theorem mem_batch_init_candidates {m : ℕ} {c : ℕ × Bool}
    (h : c ∈ batch_init_candidates m) : c.1 ≤ m := by
  simp only [batch_init_candidates, List.mem_flatMap, List.mem_range] at h
  obtain ⟨d, hd, hc⟩ := h
  have hc' : c = (d, true) ∨ c = (d, false) := by simpa using hc
  rcases hc' with rfl | rfl <;> exact Nat.lt_succ_iff.mp hd

/-- The batch candidate walk grows by one day at the tail. -/
theorem batch_init_candidates_succ (m : ℕ) :
    batch_init_candidates (m + 1)
      = batch_init_candidates m ++ [(m + 1, true), (m + 1, false)] := by
  simp [batch_init_candidates, List.range_succ]

/-- The URL set under which claim C4 fails: the 12z forecast of one day back
exists (initialization hour -12, first offset 12) and the 00z forecast of
today exists (initialization hour 0, first offset 0). -/
def c4_url_exists : ℤ × ℤ → Bool := fun p => decide (p = (-12, 12) ∨ p = (0, 0))

/-- Claim C4 is false as stated: in auto-detect mode the inner initialization
search probes all 12z candidates before any 00z candidate, so it selects the
one-day-back 12z initialization (hour -12) even though the strictly more
recent today-00z initialization (hour 0) also passes its probe.  A
most-recent-first walk with 12h before 00h within each day would have
selected the latter. -/
theorem c4_counterexample :
    find_forecast_auto c4_url_exists 0 0 = some (1, true) ∧
      first_hour_probe c4_url_exists 0 0 (0, false) = true ∧
      forecast_init_hour_of 0 (1, true) < forecast_init_hour_of 0 (0, false) := by
  refine ⟨by decide, by decide, by decide⟩

/-- Claim C4, amended: with an explicit target date the candidate walk is
strictly most-recent-first (12h before 00h within each day, each candidate's
initialization strictly later than every later candidate's), the probe of a
candidate touches only its first hourly descriptor, and the first probe
success wins; in auto-detect mode the first probe success still wins and the
probe still touches only the first descriptor, but for each search date every
12h candidate is probed before any 00h candidate, so the walk is not
most-recent-first. -/
theorem c4_amended_discovery_order :
    (∀ (t : ℤ) (m : ℕ),
        (batch_init_candidates m).Pairwise
          (fun a b => forecast_init_hour_of t b < forecast_init_hour_of t a)) ∧
    (∀ (ex : ℤ × ℤ → Bool) (t tgt : ℤ) (m : ℕ) (c : ℕ × Bool),
        find_forecast_batch ex t tgt m = some c →
          first_hour_probe ex t tgt c = true) ∧
    (∀ (ex : ℤ × ℤ → Bool) (t tgt : ℤ) (c : ℕ × Bool),
        find_forecast_auto ex t tgt = some c → first_hour_probe ex t tgt c = true) ∧
    auto_init_candidates.Pairwise (fun a b => ¬(a.2 = false ∧ b.2 = true)) := by
  refine ⟨?_, ?_, ?_, ?_⟩
  · intro t m
    induction m with
    | zero =>
      refine List.pairwise_cons.mpr ⟨?_, List.pairwise_singleton _ _⟩
      intro b hb
      have hb' : b = (0, false) := by simpa [batch_init_candidates] using hb
      subst hb'
      simp [forecast_init_hour_of]
    | succ n ih =>
      rw [batch_init_candidates_succ, List.pairwise_append]
      refine ⟨ih, ?_, ?_⟩
      · refine List.pairwise_cons.mpr ⟨?_, List.pairwise_singleton _ _⟩
        intro b hb
        have hb' : b = (n + 1, false) := by simpa using hb
        subst hb'
        simp [forecast_init_hour_of]
      · intro a ha b hb
        have hda : a.1 ≤ n := mem_batch_init_candidates ha
        have hb' : b = (n + 1, true) ∨ b = (n + 1, false) := by simpa using hb
        obtain ⟨d, z⟩ := a
        rcases hb' with rfl | rfl <;> cases z <;>
          simp only [forecast_init_hour_of, if_true, if_false] <;>
          simp <;> omega
  · intro ex t tgt m c hc
    exact List.find?_some hc
  · intro ex t tgt c hc
    exact List.find?_some hc
  · decide

/-- Witness for `c4_amended_discovery_order`: with every URL existing, the
explicit-target search selects the first candidate, whose probe succeeds. -/
theorem c4_amended_discovery_order_witness :
    first_hour_probe (fun _ => true) 0 0 (0, true) = true :=
  c4_amended_discovery_order.2.1 (fun _ => true) 0 0 5 (0, true) (by decide)

end NSAC
